import Mathlib

/-!
Shallow embedding of `bevy_quick_response` (src/src/lib.rs) in Lean 4.

The crate is a configuration layer: given a `QuickResponseMode`, it derives
a window present-mode configuration (`window_plugin`), event-loop settings
(`WinitSettings`), and frame-pacing limiter registration, applied to a bevy
`App` in `QuickResponsePlugin::build`.

Modelling choices:
* `f64` is modelled by `F64`: an exact rational for every finite double plus
  the special values `inf`, `negInf`, `nan`.  Both IEEE zeroes are conflated
  into `finite 0`; the only place the sign of zero could matter is
  `1.0 / base_fps`, and both `1.0 / +0.0 = +inf` and `1.0 / -0.0 = -inf`
  lead to the same observable outcome (a `from_secs_f64` panic), so the
  conflation is harmless.  In `F64.recipOne` the division `1.0 / x` is
  modelled exactly (no rounding to a representable double); on the inputs
  the theorems below quantify over, rounding never changes the panic /
  no-panic outcome, because `|1/x|` for finite nonzero `x` lies strictly
  between the smallest subnormal and rounds away from zero.  The 1e-9
  cadence tolerance of the spec, by contrast, IS sensitive to the rounding:
  `roundF64` and `f64WaitRounded` below model the correctly rounded
  binary64 division and the nanosecond rounding of `from_secs_f64`
  faithfully, and the cadence tolerance is settled against them (it fails
  for small positive `base_fps`).
* The compile-time `#[cfg(target_os = ...)]` dispatch in `window_plugin` is
  modelled by an explicit `OS` parameter, as the spec itself recommends
  (design note on platform dispatch).
* `Duration` is modelled as an exact rational number of seconds.
  `Duration::from_secs_f64` (Rust core, macro `try_from_secs`) returns an
  error, and hence `from_secs_f64` panics, exactly when the argument is
  negative (`secs < 0.0`), not finite, or at least `2^64` seconds.  A panic
  is modelled as `Except.error`.
* The bevy `App` is modelled by the record of the effects `build` can have
  on it: the `WinitSettings` resource, whether `DefaultPlugins` were added
  (and with which window configuration), whether `FramepacePlugin` was
  added (together with the `FramepaceSettings` resource it inserts), and
  the list of registered startup systems.
* `bevy_framepace::Limiter::from_framerate` belongs to an external crate
  whose internals the spec puts out of scope; it is modelled as an opaque
  constructor carrying the requested framerate, which is exactly the
  "configuration surface" the spec describes.
* Rust `PartialEq` on `QuickResponseMode` (derived) differs from Lean
  `DecidableEq` on `F64` only at `NaN`; `build` compares the mode only
  against `None(false)` and `None(true)`, whose payload is a `Bool`, so the
  comparison is decided by the variant tag and the difference is invisible.
-/

set_option autoImplicit false

namespace BevyQuickResponse

/-- Model of Rust `f64`: an exact rational for each finite double, plus the
special values.  Both zeroes are conflated into `finite 0`. -/
inductive F64 where
  | finite (q : ℚ)
  | inf
  | negInf
  | nan
  deriving DecidableEq, Repr

/-- IEEE-754 `1.0 / x` for a double `x`, with the quotient of a finite
nonzero argument kept exact rather than rounded to a representable double
(see the module comment).  `1.0 / 0.0 = +inf`, `1.0 / (±inf) = ±0.0`
(modelled as `finite 0`), `1.0 / NaN = NaN`.  The reciprocal is written
`Rat.divInt q.den q.num`, which equals `q⁻¹` (`recipOne_finite`); the
`divInt` spelling is kernel-reducible, so concrete runs evaluate. -/
def F64.recipOne : F64 → F64
  | .finite q => if q = 0 then .inf else .finite (Rat.divInt q.den q.num)
  | .inf => .finite 0
  | .negInf => .finite 0
  | .nan => .nan

/-- One more than the largest value of Rust `u64`, as a rational: the number
of whole seconds a `Duration` can hold is at most `2^64 - 1`. -/
def u64Count : ℚ := 18446744073709551616

/-- Model of Rust `std::time::Duration`: an exact nonnegative number of
seconds.  (The real type has nanosecond resolution; rounding to the nearest
nanosecond moves a value by at most `5e-10 s` and no theorem below depends
on sub-nanosecond structure, so the exact value is kept.) -/
abbrev Duration := ℚ

/-- Model of `Duration::from_secs_f64` (Rust core `try_from_secs`):
`none` models the panic, which fires exactly when the argument is negative,
not finite, or at least `2^64` seconds. -/
def durationFromSecsF64 : F64 → Option Duration
  | .finite q => if q < 0 then none else if u64Count ≤ q then none else some q
  | .inf => none
  | .negInf => none
  | .nan => none

/-- Target operating system, standing in for the `#[cfg(target_os = ...)]`
compile-time dispatch; `other` covers every OS that is not Windows, macOS
or Linux. -/
inductive OS where
  | windows
  | macos
  | linux
  | other
  deriving DecidableEq, Repr

/-- Model of `bevy::window::PresentMode`; `fifo` is the host default
(the value carried by `Window::default()`). -/
inductive PresentMode where
  | fifo
  | mailbox
  | immediate
  | autoNoVsync
  deriving DecidableEq, Repr

/-- Model of `bevy::window::Window`, restricted to the one field this crate
sets; every other field always keeps the host default (`..default()`). -/
structure Window where
  present_mode : PresentMode
  deriving DecidableEq, Repr

/-- `Window::default()`: host-default present mode. -/
def Window.windowDefault : Window := { present_mode := PresentMode.fifo }

/-- Model of `bevy::window::WindowPlugin`, restricted to the primary-window
configuration. -/
structure WindowPlugin where
  primary_window : Option Window
  deriving DecidableEq, Repr

/-- `WindowPlugin::default()`: a primary window with all-default fields. -/
def WindowPlugin.windowPluginDefault : WindowPlugin :=
  { primary_window := some Window.windowDefault }

/-- Model of `bevy::winit::UpdateMode`; waits are `Duration`s. -/
inductive UpdateMode where
  | continuous
  | reactive (wait : Duration)
  | reactiveLowPower (wait : Duration)
  deriving DecidableEq, Repr

/-- Model of `bevy::winit::WinitSettings`. -/
structure WinitSettings where
  focused_mode : UpdateMode
  unfocused_mode : UpdateMode
  deriving DecidableEq, Repr

/-- `WinitSettings::default()` (= `WinitSettings::game()`): continuous
updates in both states. -/
def WinitSettings.winitDefault : WinitSettings :=
  { focused_mode := UpdateMode.continuous, unfocused_mode := UpdateMode.continuous }

/-- `WinitSettings::desktop_app()`: the host "desktop application" preset
(reactive with a 5 s focused wait, reactive low-power with a 60 s unfocused
wait in bevy 0.13). -/
def WinitSettings.desktop_app : WinitSettings :=
  { focused_mode := UpdateMode.reactive 5, unfocused_mode := UpdateMode.reactiveLowPower 60 }

/-- Model of `bevy_framepace::Limiter`, reduced to its configuration
surface: the default (`Auto`) and the result of `Limiter::from_framerate`,
kept opaque with the requested framerate as payload. -/
inductive Limiter where
  | auto
  | fromFramerate (fps : F64)
  deriving DecidableEq, Repr

/-- Model of `bevy_framepace::FramepaceSettings`: the shared limiter
configuration resource. -/
structure FramepaceSettings where
  limiter : Limiter
  deriving DecidableEq, Repr

/-- `QuickResponseParameters` (src/src/lib.rs:38). -/
structure QuickResponseParameters where
  base_fps : F64
  max_fps : F64
  auto_init_default_plugins : Bool
  deriving DecidableEq, Repr

/-- `QuickResponseParametersWithNoBaseFps` (src/src/lib.rs:51). -/
structure QuickResponseParametersWithNoBaseFps where
  max_fps : F64
  auto_init_default_plugins : Bool
  deriving DecidableEq, Repr

/-- `QuickResponseParameters::default()` (src/src/lib.rs:60). -/
def QuickResponseParameters.paramsDefault : QuickResponseParameters :=
  { base_fps := F64.finite 60, max_fps := F64.finite 120, auto_init_default_plugins := true }

/-- `QuickResponseMode` (src/src/lib.rs:13). -/
inductive QuickResponseMode where
  | fastVsync (params : QuickResponseParameters)
  | immediate (params : QuickResponseParameters)
  | autoNoVsync (params : QuickResponseParameters)
  | powerSaving (params : QuickResponseParametersWithNoBaseFps)
  | none (should_default_plugins_enabled : Bool)
  deriving DecidableEq, Repr

/-- `QuickResponseMode::default()` (src/src/lib.rs:31). -/
def QuickResponseMode.modeDefault : QuickResponseMode :=
  QuickResponseMode.fastVsync QuickResponseParameters.paramsDefault

/-- `QuickResponsePlugin` (src/src/lib.rs:6). -/
structure QuickResponsePlugin where
  mode : QuickResponseMode
  _no_framepace_for_test : Bool
  deriving DecidableEq, Repr

namespace QuickResponsePlugin

/-- `QuickResponsePlugin::new` (src/src/lib.rs:71). -/
def new (mode : QuickResponseMode) : QuickResponsePlugin :=
  { mode := mode, _no_framepace_for_test := false }

/-- `QuickResponsePlugin::power_saving` (src/src/lib.rs:78). -/
def power_saving (max_fps : F64) : QuickResponsePlugin :=
  new (QuickResponseMode.powerSaving
    { max_fps := max_fps, auto_init_default_plugins := true })

/-- `QuickResponsePlugin::fast_vsync` (src/src/lib.rs:85). -/
def fast_vsync (base_fps max_fps : F64) : QuickResponsePlugin :=
  new (QuickResponseMode.fastVsync
    { base_fps := base_fps, max_fps := max_fps, auto_init_default_plugins := true })

/-- `QuickResponsePlugin::immediate` (src/src/lib.rs:93). -/
def immediate (base_fps max_fps : F64) : QuickResponsePlugin :=
  new (QuickResponseMode.immediate
    { base_fps := base_fps, max_fps := max_fps, auto_init_default_plugins := true })

/-- `QuickResponsePlugin::auto_no_vsync` (src/src/lib.rs:101). -/
def auto_no_vsync (base_fps max_fps : F64) : QuickResponsePlugin :=
  new (QuickResponseMode.autoNoVsync
    { base_fps := base_fps, max_fps := max_fps, auto_init_default_plugins := true })

/-- `QuickResponsePlugin::none` (src/src/lib.rs:109). -/
def noneMode (should_default_plugins_enabled : Bool) : QuickResponsePlugin :=
  new (QuickResponseMode.none should_default_plugins_enabled)

/-- `QuickResponsePlugin::with_no_framepace_for_test` (src/src/lib.rs:113). -/
def with_no_framepace_for_test (self : QuickResponsePlugin) : QuickResponsePlugin :=
  { mode := self.mode, _no_framepace_for_test := true }

/-- `QuickResponsePlugin::with_no_default_plugins` (src/src/lib.rs:120). -/
def with_no_default_plugins (self : QuickResponsePlugin) : QuickResponsePlugin :=
  match self.mode with
  | QuickResponseMode.none _ => noneMode false
  | QuickResponseMode.fastVsync params =>
      new (QuickResponseMode.fastVsync
        { params with auto_init_default_plugins := false })
  | QuickResponseMode.immediate params =>
      new (QuickResponseMode.immediate
        { params with auto_init_default_plugins := false })
  | QuickResponseMode.autoNoVsync params =>
      new (QuickResponseMode.autoNoVsync
        { params with auto_init_default_plugins := false })
  | QuickResponseMode.powerSaving params =>
      new (QuickResponseMode.powerSaving
        { params with auto_init_default_plugins := false })

/-- `QuickResponsePlugin::window_plugin` (src/src/lib.rs:160); the
`#[cfg(target_os = ...)]` attributes become a match on `os`. -/
def window_plugin (self : QuickResponsePlugin) (os : OS) : WindowPlugin :=
  match self.mode with
  | QuickResponseMode.fastVsync _ =>
      { primary_window := some { present_mode :=
          match os with
          | OS.windows => PresentMode.mailbox
          | OS.macos => PresentMode.autoNoVsync
          | OS.linux => PresentMode.mailbox
          | OS.other => PresentMode.autoNoVsync } }
  | QuickResponseMode.immediate _ =>
      { primary_window := some { present_mode := PresentMode.immediate } }
  | QuickResponseMode.autoNoVsync _ =>
      { primary_window := some { present_mode := PresentMode.autoNoVsync } }
  | QuickResponseMode.powerSaving _ =>
      { primary_window := some { present_mode :=
          match os with
          | OS.windows => PresentMode.mailbox
          | OS.macos => PresentMode.autoNoVsync
          | OS.linux => PresentMode.mailbox
          | OS.other => PresentMode.autoNoVsync } }
  | QuickResponseMode.none _ => WindowPlugin.windowPluginDefault

/-- `QuickResponsePlugin::default()` (src/src/lib.rs:219). -/
def pluginDefault : QuickResponsePlugin :=
  new QuickResponseMode.modeDefault

end QuickResponsePlugin

/-- The single kind of startup system this crate registers: the closure
returned by `setup_fps(max_fps)` (src/src/lib.rs:225). -/
inductive StartupSystem where
  | setupFps (max_fps : F64)
  deriving DecidableEq, Repr

/-- Running the `setup_fps(max_fps)` closure on the shared
`FramepaceSettings` resource: `framepace_settings.limiter =
Limiter::from_framerate(max_fps)` (src/src/lib.rs:226). -/
def runStartupSystem : StartupSystem → FramepaceSettings → FramepaceSettings
  | StartupSystem.setupFps max_fps, s =>
      { s with limiter := Limiter.fromFramerate max_fps }

/-- `is_base_fps_enabled` (src/src/lib.rs:231). -/
def is_base_fps_enabled : QuickResponseMode → Bool
  | QuickResponseMode.fastVsync _ => true
  | QuickResponseMode.immediate _ => true
  | QuickResponseMode.autoNoVsync _ => true
  | QuickResponseMode.powerSaving _ => false
  | QuickResponseMode.none _ => false

/-- `is_power_saving_enabled` (src/src/lib.rs:241). -/
def is_power_saving_enabled : QuickResponseMode → Bool
  | QuickResponseMode.fastVsync _ => false
  | QuickResponseMode.immediate _ => false
  | QuickResponseMode.autoNoVsync _ => false
  | QuickResponseMode.powerSaving _ => true
  | QuickResponseMode.none _ => false

/-- Model of the bevy `App`, restricted to the state `build` can touch:
the `WinitSettings` resource, whether `DefaultPlugins` were added and with
which window-plugin override (`DefaultPlugins.set(...)`), whether
`FramepacePlugin` was added (with the `FramepaceSettings` resource it
inserts), and the registered startup systems. -/
structure App where
  winitSettings : Option WinitSettings
  defaultPluginsAdded : Bool
  defaultPluginsWindow : Option WindowPlugin
  framepaceAdded : Bool
  framepaceSettings : Option FramepaceSettings
  startupSystems : List StartupSystem
  deriving DecidableEq, Repr

/-- `App::new()`: the empty application, before any plugin is built. -/
def App.appNew : App :=
  { winitSettings := none
    defaultPluginsAdded := false
    defaultPluginsWindow := none
    framepaceAdded := false
    framepaceSettings := none
    startupSystems := [] }

/-- The `WinitSettings` record built inline in `build`
(src/src/lib.rs:272): reactive low-power in both the focused and the
unfocused state, with the same wait. -/
def reactiveBoth (wait : Duration) : WinitSettings :=
  { focused_mode := UpdateMode.reactiveLowPower wait,
    unfocused_mode := UpdateMode.reactiveLowPower wait }

/-- The tail of `build` after the event-loop settings step
(src/src/lib.rs:300): add `DefaultPlugins.set(window_plugin())` when
`auto_init_default_plugins` is set, then, unless the test-suppression flag
is set, add `FramepacePlugin` when absent and register the `setup_fps`
startup system. -/
def QuickResponsePlugin.finishBuild (self : QuickResponsePlugin) (os : OS)
    (max_fps : F64) (auto_init_default_plugins : Bool) (app : App) : App :=
  let app :=
    if auto_init_default_plugins then
      { app with defaultPluginsAdded := true,
                 defaultPluginsWindow := some (self.window_plugin os) }
    else app
  if !self._no_framepace_for_test then
    let app :=
      if !app.framepaceAdded then
        { app with framepaceAdded := true,
                   framepaceSettings := some { limiter := Limiter.auto } }
      else app
    { app with startupSystems := app.startupSystems ++ [StartupSystem.setupFps max_fps] }
  else app

/-- `Plugin::build for QuickResponsePlugin` (src/src/lib.rs:252).
A Rust panic (from `Duration::from_secs_f64`, or the `unreachable!()`
arms) is modelled as `Except.error`; the `app.add_plugins(())` call adds
an empty plugin group and has no observable effect, so it is omitted. -/
def QuickResponsePlugin.build (self : QuickResponsePlugin) (os : OS)
    (app : App) : Except String App :=
  if self.mode = QuickResponseMode.none false then
    -- do nothing
    Except.ok app
  else if self.mode = QuickResponseMode.none true then
    -- just add the default plugins
    Except.ok { app with defaultPluginsAdded := true }
  else do
    let app ←
      if is_base_fps_enabled self.mode then do
        let base_fps ←
          match self.mode with
          | QuickResponseMode.fastVsync params => Except.ok params.base_fps
          | QuickResponseMode.autoNoVsync params => Except.ok params.base_fps
          | QuickResponseMode.immediate params => Except.ok params.base_fps
          | QuickResponseMode.powerSaving _ => Except.error "unreachable"
          | QuickResponseMode.none _ => Except.error "unreachable"
        match durationFromSecsF64 (F64.recipOne base_fps) with
        | some wait =>
            Except.ok { app with winitSettings := some (reactiveBoth wait) }
        | none => Except.error "panicked at Duration::from_secs_f64"
      else if is_power_saving_enabled self.mode then
        Except.ok { app with winitSettings := some WinitSettings.desktop_app }
      else
        Except.ok app
    let max_fps ←
      match self.mode with
      | QuickResponseMode.fastVsync params => Except.ok params.max_fps
      | QuickResponseMode.autoNoVsync params => Except.ok params.max_fps
      | QuickResponseMode.immediate params => Except.ok params.max_fps
      | QuickResponseMode.powerSaving params => Except.ok params.max_fps
      | QuickResponseMode.none _ => Except.error "unreachable"
    let auto_init_default_plugins ←
      match self.mode with
      | QuickResponseMode.fastVsync params => Except.ok params.auto_init_default_plugins
      | QuickResponseMode.autoNoVsync params => Except.ok params.auto_init_default_plugins
      | QuickResponseMode.immediate params => Except.ok params.auto_init_default_plugins
      | QuickResponseMode.powerSaving params => Except.ok params.auto_init_default_plugins
      | QuickResponseMode.none _ => Except.error "unreachable"
    Except.ok (self.finishBuild os max_fps auto_init_default_plugins app)

/-- Whether a mode is the `None(_)` variant. -/
def QuickResponseMode.isNoneVariant : QuickResponseMode → Bool
  | QuickResponseMode.none _ => true
  | _ => false

/-- The `max_fps` carried by a mode (`None(_)` carries none); mirrors the
`max_fps` match of `build` (src/src/lib.rs:284). -/
def QuickResponseMode.maxFps : QuickResponseMode → Option F64
  | QuickResponseMode.fastVsync params => some params.max_fps
  | QuickResponseMode.autoNoVsync params => some params.max_fps
  | QuickResponseMode.immediate params => some params.max_fps
  | QuickResponseMode.powerSaving params => some params.max_fps
  | QuickResponseMode.none _ => Option.none

/-- The `base_fps` carried by a mode, for the three modes with one;
mirrors the `base_fps` match of `build` (src/src/lib.rs:263). -/
def QuickResponseMode.baseFps : QuickResponseMode → Option F64
  | QuickResponseMode.fastVsync params => some params.base_fps
  | QuickResponseMode.autoNoVsync params => some params.base_fps
  | QuickResponseMode.immediate params => some params.base_fps
  | QuickResponseMode.powerSaving _ => Option.none
  | QuickResponseMode.none _ => Option.none

/-- Decidable equality of build results, so that concrete runs of `build`
can be checked by evaluation. -/
instance : DecidableEq (Except String App) := fun x y =>
  match x, y with
  | Except.ok a, Except.ok b => decidable_of_iff (a = b) (by simp)
  | Except.error a, Except.error b => decidable_of_iff (a = b) (by simp)
  | Except.ok _, Except.error _ => isFalse (by simp)
  | Except.error _, Except.ok _ => isFalse (by simp)

/-- The present-mode table of spec section 4.2, written from the words of
the spec for the refinement comparison in `present_mode_table`:
`FastVsync` and `PowerSaving` map to Mailbox on Windows and Linux and to
AutoNoVsync on macOS and other OSes; `Immediate` maps to Immediate and
`AutoNoVsync` to AutoNoVsync on every OS; `None(_)` has no entry (the
host-default window configuration is kept). -/
def specPresentMode (mode : QuickResponseMode) (os : OS) : Option PresentMode :=
  match mode with
  | QuickResponseMode.fastVsync _ =>
      some (match os with
            | OS.windows => PresentMode.mailbox
            | OS.linux => PresentMode.mailbox
            | OS.macos => PresentMode.autoNoVsync
            | OS.other => PresentMode.autoNoVsync)
  | QuickResponseMode.powerSaving _ =>
      some (match os with
            | OS.windows => PresentMode.mailbox
            | OS.linux => PresentMode.mailbox
            | OS.macos => PresentMode.autoNoVsync
            | OS.other => PresentMode.autoNoVsync)
  | QuickResponseMode.immediate _ => some PresentMode.immediate
  | QuickResponseMode.autoNoVsync _ => some PresentMode.autoNoVsync
  | QuickResponseMode.none _ => Option.none

/-- Concrete application state reached by building
`fast_vsync(60.0, 120.0)` on Linux against an empty application; used by
the witness of the limiter-engagement theorem. -/
def appAfterFastVsyncBuild : App :=
  { winitSettings := some (reactiveBoth (Rat.divInt 1 60))
    defaultPluginsAdded := true
    defaultPluginsWindow := some { primary_window := some { present_mode := PresentMode.mailbox } }
    framepaceAdded := true
    framepaceSettings := some { limiter := Limiter.auto }
    startupSystems := [StartupSystem.setupFps (F64.finite 120)] }

/-- Concrete application state reached by building `immediate(60.0, 120.0)`
on Linux against an empty application; used by the witness of the
startup-hook theorem. -/
def appAfterImmediateBuild : App :=
  { winitSettings := some (reactiveBoth (Rat.divInt 1 60))
    defaultPluginsAdded := true
    defaultPluginsWindow := some { primary_window := some { present_mode := PresentMode.immediate } }
    framepaceAdded := true
    framepaceSettings := some { limiter := Limiter.auto }
    startupSystems := [StartupSystem.setupFps (F64.finite 120)] }

/-- Concrete application state reached by building
`fast_vsync(60.0, 120.0).with_no_framepace_for_test().with_no_default_plugins()`
on Linux against an empty application; used by the witness of the
suppression-discarding theorem. -/
def appAfterCompositeBuild : App :=
  { winitSettings := some (reactiveBoth (Rat.divInt 1 60))
    defaultPluginsAdded := false
    defaultPluginsWindow := none
    framepaceAdded := true
    framepaceSettings := some { limiter := Limiter.auto }
    startupSystems := [StartupSystem.setupFps (F64.finite 120)] }

/-- `q · n` for an integer `n`, written on the numerator so that it is
kernel-reducible (`Rat.mul` is irreducible); equals `q * n`
(`ratMulInt_eq`). -/
def ratMulInt (q : ℚ) (n : ℤ) : ℚ := Rat.divInt (q.num * n) (q.den : ℤ)

/-- `2 ^ e` as a rational, for an integer exponent, kernel-reducible;
equals `(2 : ℚ) ^ e` (`pow2Q_eq`). -/
def pow2Q (e : ℤ) : ℚ :=
  if 0 ≤ e then Rat.divInt (2 ^ e.toNat) 1 else Rat.divInt 1 (2 ^ (-e).toNat)

/-- `q · 2 ^ e`, kernel-reducible; equals `q * pow2Q e`
(`ratMulPow2_eq`). -/
def ratMulPow2 (q : ℚ) (e : ℤ) : ℚ :=
  if 0 ≤ e then Rat.divInt (q.num * 2 ^ e.toNat) (q.den : ℤ)
  else Rat.divInt q.num ((q.den : ℤ) * 2 ^ (-e).toNat)

/-- `n · 2 ^ e` for an integer `n`, kernel-reducible; equals
`(n : ℚ) * pow2Q e` (`intMulPow2_eq`). -/
def intMulPow2 (n : ℤ) (e : ℤ) : ℚ :=
  if 0 ≤ e then Rat.divInt (n * 2 ^ e.toNat) 1 else Rat.divInt n (2 ^ (-e).toNat)

/-- Round a rational to the nearest integer, ties to even — the rounding
mode of IEEE-754 binary64 arithmetic and of the nanosecond rounding inside
`Duration::from_secs_f64`.  The fractional part
`q - ⌊q⌋ = (q.num - ⌊q⌋·q.den) / q.den` is compared with `1/2` on the
integer side, keeping the definition kernel-reducible. -/
def ratRoundHalfEven (q : ℚ) : ℤ :=
  if 2 * (q.num - ⌊q⌋ * (q.den : ℤ)) < (q.den : ℤ) then ⌊q⌋
  else if (q.den : ℤ) < 2 * (q.num - ⌊q⌋ * (q.den : ℤ)) then ⌊q⌋ + 1
  else if ⌊q⌋ % 2 = 0 then ⌊q⌋ else ⌊q⌋ + 1

/-- Fuelled binary logarithm: halve until the argument drops below 2.
With `fuel = n` this computes `⌊log₂ n⌋` for `n ≥ 1`; the structural
recursion on the fuel keeps it kernel-reducible (`Nat.log2` is
well-founded and is not). -/
def log2Fuel : ℕ → ℕ → ℕ
  | 0, _ => 0
  | fuel + 1, n => if 2 ≤ n then log2Fuel fuel (n / 2) + 1 else 0

/-- `⌊log₂ n⌋` for `n ≥ 1` (0 at 0), kernel-reducible. -/
def natLog2F (n : ℕ) : ℕ := log2Fuel n n

/-- `⌊log₂ x⌋` of a positive rational: the exponent `e` with
`2^e ≤ x < 2^(e+1)`.  For `x ≥ 1` it is the binary logarithm of `⌊x⌋`;
for `x < 1` it is read off the binary logarithm of `⌊1/x⌋`, with the
exact powers of two separated out. -/
def ratFloorLog2 (x : ℚ) : ℤ :=
  if 1 ≤ x then (natLog2F (⌊x⌋).toNat : ℤ)
  else if x = pow2Q (-(natLog2F (⌊(Rat.divInt (x.den : ℤ) x.num : ℚ)⌋).toNat : ℤ)) then
    -(natLog2F (⌊(Rat.divInt (x.den : ℤ) x.num : ℚ)⌋).toNat : ℤ)
  else -(natLog2F (⌊(Rat.divInt (x.den : ℤ) x.num : ℚ)⌋).toNat : ℤ) - 1

/-- Correctly rounded IEEE-754 binary64 value of a positive rational:
round to the nearest multiple of the ulp `2 ^ (⌊log₂ x⌋ - 52)` (53-bit
significand, ties to even), with the subnormal floor `2 ^ (-1074)`; a
magnitude at or below half the smallest subnormal underflows to zero
through the grid rounding itself, and an overflowing value rounds to
`2^1024`-and-above, which every caller treats as the panic range. -/
def roundF64Pos (x : ℚ) : ℚ :=
  intMulPow2 (ratRoundHalfEven (ratMulPow2 x (-(max (ratFloorLog2 x - 52) (-1074)))))
    (max (ratFloorLog2 x - 52) (-1074))

/-- Correctly rounded IEEE-754 binary64 value of a rational,
sign-mirrored through `roundF64Pos`. -/
def roundF64 (x : ℚ) : ℚ :=
  if x = 0 then 0
  else if x < 0 then -roundF64Pos (-x)
  else roundF64Pos x

/-- Rounding of an accepted duration (in seconds) to the nanosecond grid,
ties to even, as `Duration::from_secs_f64` performs internally. -/
def nsRound (x : ℚ) : ℚ :=
  Rat.divInt (ratRoundHalfEven (ratMulInt x 1000000000)) 1000000000

/-- The wait duration the real program computes for a finite
`base_fps = q`: correctly rounded IEEE-754 binary64 division `1.0 / q`
(`roundF64`: exact quotient, then nearest-even rounding to the 53-bit
grid), then `Duration::from_secs_f64`, which panics on a negative result
(`-inf` and all finite negatives; a negative quotient that underflows to
`-0.0` — conflated with `0` here — is accepted, matching the
`secs < 0.0` check of Rust core `try_from_secs`) and on a result
`≥ 2^64` s (which also covers overflow to `+inf`), and otherwise rounds
to the nanosecond grid, ties to even.  `F64.recipOne` and
`durationFromSecsF64` above keep the quotient exact instead; that is
observationally equal for the panic / no-panic outcome but not for the
spec's 1e-9 cadence tolerance, which this faithful refinement settles. -/
def f64WaitRounded (q : ℚ) : Option Duration :=
  if q = 0 then none
  else if roundF64 (Rat.divInt (q.den : ℤ) q.num) < 0 then none
  else if u64Count ≤ roundF64 (Rat.divInt (q.den : ℤ) q.num) then none
  else some (nsRound (roundF64 (Rat.divInt (q.den : ℤ) q.num)))

/-- On a finite nonzero double, `recipOne` is the exact inverse. -/
theorem F64.recipOne_finite (q : ℚ) (hq : q ≠ 0) :
    F64.recipOne (F64.finite q) = F64.finite q⁻¹ := by
  simp [F64.recipOne, hq, ← Rat.inv_def']

/-- `ratMulInt` is multiplication by an integer. -/
theorem ratMulInt_eq (q : ℚ) (n : ℤ) : ratMulInt q n = q * (n : ℚ) := by
  rw [ratMulInt, Rat.divInt_eq_div]
  push_cast
  rw [mul_comm (q.num : ℚ) (n : ℚ), mul_div_assoc, Rat.num_div_den, mul_comm]

/-- `pow2Q` is the integer power of two. -/
theorem pow2Q_eq (e : ℤ) : pow2Q e = (2 : ℚ) ^ e := by
  rw [pow2Q]
  split_ifs with h
  · rw [Rat.divInt_eq_div]
    push_cast
    rw [div_one, ← zpow_natCast (2:ℚ), Int.toNat_of_nonneg h]
  · rw [Rat.divInt_eq_div]
    push_cast
    rw [one_div, ← zpow_natCast (2:ℚ), Int.toNat_of_nonneg (by omega : (0:ℤ) ≤ -e),
      ← zpow_neg, neg_neg]

/-- `ratMulPow2` is multiplication by `pow2Q`. -/
theorem ratMulPow2_eq (q : ℚ) (e : ℤ) : ratMulPow2 q e = q * pow2Q e := by
  rw [ratMulPow2, pow2Q]
  split_ifs with h
  · rw [Rat.divInt_eq_div, Rat.divInt_eq_div]
    push_cast
    rw [div_one, mul_div_right_comm, Rat.num_div_den]
  · rw [Rat.divInt_eq_div, Rat.divInt_eq_div]
    push_cast
    rw [div_mul_eq_div_div, Rat.num_div_den, one_div, div_eq_mul_inv]

/-- `intMulPow2` is multiplication by `pow2Q`. -/
theorem intMulPow2_eq (n : ℤ) (e : ℤ) : intMulPow2 n e = (n : ℚ) * pow2Q e := by
  rw [intMulPow2, pow2Q]
  split_ifs with h
  · rw [Rat.divInt_eq_div, Rat.divInt_eq_div]
    push_cast
    rw [div_one, div_one]
  · rw [Rat.divInt_eq_div, Rat.divInt_eq_div]
    push_cast
    rw [one_div, div_eq_mul_inv]

/-- Rounding to the nearest integer, ties to even, moves a rational by at
most one half. -/
theorem ratRoundHalfEven_err (q : ℚ) : |(ratRoundHalfEven q : ℚ) - q| ≤ 1 / 2 := by
  have hden : (0 : ℚ) < (q.den : ℚ) := by
    exact_mod_cast Nat.pos_of_ne_zero q.den_nz
  have hfl : ((⌊q⌋ : ℤ) : ℚ) ≤ q := Int.floor_le q
  have hfl2 : q < (⌊q⌋ : ℚ) + 1 := Int.lt_floor_add_one q
  have hnum : (q.num : ℚ) = q * (q.den : ℚ) :=
    (div_eq_iff (ne_of_gt hden)).mp (Rat.num_div_den q)
  have hr2 : ((2 * (q.num - ⌊q⌋ * (q.den : ℤ)) : ℤ) : ℚ)
      = 2 * (q.den : ℚ) * (q - (⌊q⌋ : ℚ)) := by
    push_cast
    rw [hnum]
    ring
  rw [ratRoundHalfEven]
  split_ifs with h1 h2 h3
  · have h1q : 2 * (q.den : ℚ) * (q - (⌊q⌋ : ℚ)) < (q.den : ℚ) := by
      rw [← hr2]
      exact_mod_cast h1
    have hfr : q - (⌊q⌋ : ℚ) < 1 / 2 := by nlinarith [h1q, hden]
    rw [abs_le]
    constructor <;> linarith
  · have h2q : (q.den : ℚ) < 2 * (q.den : ℚ) * (q - (⌊q⌋ : ℚ)) := by
      rw [← hr2]
      exact_mod_cast h2
    have hfr : 1 / 2 < q - (⌊q⌋ : ℚ) := by nlinarith [h2q, hden]
    push_cast
    rw [abs_le]
    constructor <;> linarith
  · have heq : 2 * (q.den : ℚ) * (q - (⌊q⌋ : ℚ)) = (q.den : ℚ) := by
      rw [← hr2]
      exact_mod_cast le_antisymm (not_lt.mp h2) (not_lt.mp h1)
    have hfr : q - (⌊q⌋ : ℚ) = 1 / 2 := by
      have h2f : (q.den : ℚ) * (2 * (q - (⌊q⌋ : ℚ))) = (q.den : ℚ) * 1 := by linarith [heq]
      have := mul_left_cancel₀ (ne_of_gt hden) h2f
      linarith
    rw [abs_le]
    constructor <;> linarith
  · have heq : 2 * (q.den : ℚ) * (q - (⌊q⌋ : ℚ)) = (q.den : ℚ) := by
      rw [← hr2]
      exact_mod_cast le_antisymm (not_lt.mp h2) (not_lt.mp h1)
    have hfr : q - (⌊q⌋ : ℚ) = 1 / 2 := by
      have h2f : (q.den : ℚ) * (2 * (q - (⌊q⌋ : ℚ))) = (q.den : ℚ) * 1 := by linarith [heq]
      have := mul_left_cancel₀ (ne_of_gt hden) h2f
      linarith
    push_cast
    rw [abs_le]
    constructor <;> linarith

/-- Grid rounding at the ulp of the argument moves a positive rational by
at most half an ulp. -/
theorem roundF64Pos_err (x : ℚ) :
    |roundF64Pos x - x| ≤ pow2Q (max (ratFloorLog2 x - 52) (-1074)) / 2 := by
  rw [roundF64Pos, intMulPow2_eq, ratMulPow2_eq]
  set s := max (ratFloorLog2 x - 52) (-1074) with hs
  have hpos : (0 : ℚ) < pow2Q s := by
    rw [pow2Q_eq]
    positivity
  have hxy : (x * pow2Q (-s)) * pow2Q s = x := by
    rw [pow2Q_eq, pow2Q_eq, mul_assoc, ← zpow_add₀ (by norm_num : (2:ℚ) ≠ 0)]
    simp
  calc |(ratRoundHalfEven (x * pow2Q (-s)) : ℚ) * pow2Q s - x|
      = |(ratRoundHalfEven (x * pow2Q (-s)) : ℚ) - x * pow2Q (-s)| * pow2Q s := by
        nth_rewrite 2 [← hxy]
        rw [← sub_mul, abs_mul, abs_of_pos hpos]
    _ ≤ (1 / 2) * pow2Q s := mul_le_mul_of_nonneg_right (ratRoundHalfEven_err _) hpos.le
    _ = pow2Q s / 2 := by ring

/-- The fuelled logarithm is bounded by any `k` with `n < 2 ^ (k + 1)`. -/
theorem log2Fuel_le (fuel n k : ℕ) (h : n < 2 ^ (k + 1)) : log2Fuel fuel n ≤ k := by
  induction fuel generalizing n k with
  | zero => exact Nat.zero_le k
  | succ fuel ih =>
      rw [log2Fuel]
      split_ifs with h2
      · cases k with
        | zero =>
            norm_num at h
            omega
        | succ k' =>
            have hdiv : n / 2 < 2 ^ (k' + 1) := by
              rw [Nat.div_lt_iff_lt_mul (by norm_num : 0 < 2)]
              calc n < 2 ^ (k' + 1 + 1) := h
                _ = 2 ^ (k' + 1) * 2 := by ring
            exact Nat.succ_le_succ (ih (n / 2) k' hdiv)
      · exact Nat.zero_le k

/-- Exponent bound: a rational below `2^23` has `⌊log₂ x⌋ ≤ 22`. -/
theorem ratFloorLog2_le (x : ℚ) (hx : x < 2 ^ (23 : ℕ)) :
    ratFloorLog2 x ≤ 22 := by
  rw [ratFloorLog2]
  split_ifs with h1 h2
  · have hfl : ⌊x⌋ < (2 : ℤ) ^ (23 : ℕ) := by
      rw [Int.floor_lt]
      exact_mod_cast hx
    have hnat : (⌊x⌋).toNat < 2 ^ 23 := by
      norm_num at hfl ⊢
      omega
    have hlog : natLog2F (⌊x⌋).toNat ≤ 22 := log2Fuel_le _ _ 22 (by norm_num; omega)
    exact_mod_cast hlog
  · omega
  · omega

/-- Rounding a duration to the nanosecond grid moves it by at most half a
nanosecond. -/
theorem nsRound_err (x : ℚ) : |nsRound x - x| ≤ 1 / 2000000000 := by
  have h : nsRound x - x
      = ((ratRoundHalfEven (x * (1000000000 : ℚ)) : ℚ) - x * 1000000000) / 1000000000 := by
    rw [nsRound, ratMulInt_eq, Rat.divInt_eq_div]
    push_cast
    ring
  rw [h, abs_div, abs_of_pos (by norm_num : (0:ℚ) < 1000000000)]
  calc |(ratRoundHalfEven (x * (1000000000 : ℚ)) : ℚ) - x * 1000000000| / 1000000000
      ≤ (1 / 2) / 1000000000 :=
        (div_le_div_iff_of_pos_right (by norm_num)).mpr (ratRoundHalfEven_err _)
    _ = 1 / 2000000000 := by norm_num

/-- Unfolding lemma: `build` on a `None(b)` plugin. -/
theorem build_noneMode_eq (b flag : Bool) (os : OS) (app : App) :
    (QuickResponsePlugin.mk (QuickResponseMode.none b) flag).build os app =
      (if b then Except.ok { app with defaultPluginsAdded := true } else Except.ok app) := by
  cases b <;> rfl

/-- Unfolding lemma: `build` on a `FastVsync` plugin. -/
theorem build_fastVsync_eq (bf mf : F64) (ai flag : Bool) (os : OS) (app : App) :
    (QuickResponsePlugin.mk (QuickResponseMode.fastVsync ⟨bf, mf, ai⟩) flag).build os app =
      (match durationFromSecsF64 (F64.recipOne bf) with
       | some wait =>
           Except.ok ((QuickResponsePlugin.mk (QuickResponseMode.fastVsync ⟨bf, mf, ai⟩) flag).finishBuild
             os mf ai { app with winitSettings := some (reactiveBoth wait) })
       | Option.none => Except.error "panicked at Duration::from_secs_f64") := by
  cases hd : durationFromSecsF64 (F64.recipOne bf) <;>
    · simp only [QuickResponsePlugin.build, bind, Except.bind]
      simp only [hd]
      rfl

/-- Unfolding lemma: `build` on an `Immediate` plugin. -/
theorem build_immediate_eq (bf mf : F64) (ai flag : Bool) (os : OS) (app : App) :
    (QuickResponsePlugin.mk (QuickResponseMode.immediate ⟨bf, mf, ai⟩) flag).build os app =
      (match durationFromSecsF64 (F64.recipOne bf) with
       | some wait =>
           Except.ok ((QuickResponsePlugin.mk (QuickResponseMode.immediate ⟨bf, mf, ai⟩) flag).finishBuild
             os mf ai { app with winitSettings := some (reactiveBoth wait) })
       | Option.none => Except.error "panicked at Duration::from_secs_f64") := by
  cases hd : durationFromSecsF64 (F64.recipOne bf) <;>
    · simp only [QuickResponsePlugin.build, bind, Except.bind]
      simp only [hd]
      rfl

/-- Unfolding lemma: `build` on an `AutoNoVsync` plugin. -/
theorem build_autoNoVsync_eq (bf mf : F64) (ai flag : Bool) (os : OS) (app : App) :
    (QuickResponsePlugin.mk (QuickResponseMode.autoNoVsync ⟨bf, mf, ai⟩) flag).build os app =
      (match durationFromSecsF64 (F64.recipOne bf) with
       | some wait =>
           Except.ok ((QuickResponsePlugin.mk (QuickResponseMode.autoNoVsync ⟨bf, mf, ai⟩) flag).finishBuild
             os mf ai { app with winitSettings := some (reactiveBoth wait) })
       | Option.none => Except.error "panicked at Duration::from_secs_f64") := by
  cases hd : durationFromSecsF64 (F64.recipOne bf) <;>
    · simp only [QuickResponsePlugin.build, bind, Except.bind]
      simp only [hd]
      rfl

/-- Unfolding lemma: `build` on a `PowerSaving` plugin. -/
theorem build_powerSaving_eq (mf : F64) (ai flag : Bool) (os : OS) (app : App) :
    (QuickResponsePlugin.mk (QuickResponseMode.powerSaving ⟨mf, ai⟩) flag).build os app =
      Except.ok ((QuickResponsePlugin.mk (QuickResponseMode.powerSaving ⟨mf, ai⟩) flag).finishBuild
        os mf ai { app with winitSettings := some WinitSettings.desktop_app }) := rfl

/-- `finishBuild` never touches the event-loop settings resource. -/
theorem finishBuild_winitSettings (self : QuickResponsePlugin) (os : OS)
    (mf : F64) (ai : Bool) (app : App) :
    (self.finishBuild os mf ai app).winitSettings = app.winitSettings := by
  unfold QuickResponsePlugin.finishBuild
  cases self._no_framepace_for_test <;> cases ai <;>
    cases hf : app.framepaceAdded <;> simp [hf]

/-- After `finishBuild` on an application without the limiter subsystem,
the limiter subsystem is present exactly when the test-suppression flag is
clear. -/
theorem finishBuild_framepaceAdded (self : QuickResponsePlugin) (os : OS)
    (mf : F64) (ai : Bool) (app : App) (h : app.framepaceAdded = false) :
    (self.finishBuild os mf ai app).framepaceAdded = !self._no_framepace_for_test := by
  unfold QuickResponsePlugin.finishBuild
  cases self._no_framepace_for_test <;> cases ai <;> simp [h]

/-- When the test-suppression flag is clear, `finishBuild` registers the
`setup_fps(max_fps)` startup system. -/
theorem finishBuild_startupSystems (self : QuickResponsePlugin) (os : OS)
    (mf : F64) (ai : Bool) (app : App) (h : self._no_framepace_for_test = false) :
    StartupSystem.setupFps mf ∈ (self.finishBuild os mf ai app).startupSystems := by
  unfold QuickResponsePlugin.finishBuild
  cases ai <;> cases hf : app.framepaceAdded <;> simp [h, hf]

/-- After a completed `build` on an application without the limiter
subsystem, the limiter subsystem is present exactly when the mode is not
`None(_)` and the test-suppression flag is clear. -/
theorem framepace_after_build (p : QuickResponsePlugin) (os : OS) (app appR : App)
    (h0 : app.framepaceAdded = false)
    (hb : p.build os app = Except.ok appR) :
    appR.framepaceAdded = (!p.mode.isNoneVariant && !p._no_framepace_for_test) := by
  obtain ⟨mode, flag⟩ := p
  cases mode with
  | fastVsync params =>
      obtain ⟨bf, mf, ai⟩ := params
      rw [build_fastVsync_eq] at hb
      cases hd : durationFromSecsF64 (F64.recipOne bf) with
      | none => rw [hd] at hb; simp at hb
      | some wait =>
          rw [hd] at hb
          injection hb with hb
          subst hb
          rw [finishBuild_framepaceAdded _ _ _ _ _ (by simpa using h0)]
          rfl
  | immediate params =>
      obtain ⟨bf, mf, ai⟩ := params
      rw [build_immediate_eq] at hb
      cases hd : durationFromSecsF64 (F64.recipOne bf) with
      | none => rw [hd] at hb; simp at hb
      | some wait =>
          rw [hd] at hb
          injection hb with hb
          subst hb
          rw [finishBuild_framepaceAdded _ _ _ _ _ (by simpa using h0)]
          rfl
  | autoNoVsync params =>
      obtain ⟨bf, mf, ai⟩ := params
      rw [build_autoNoVsync_eq] at hb
      cases hd : durationFromSecsF64 (F64.recipOne bf) with
      | none => rw [hd] at hb; simp at hb
      | some wait =>
          rw [hd] at hb
          injection hb with hb
          subst hb
          rw [finishBuild_framepaceAdded _ _ _ _ _ (by simpa using h0)]
          rfl
  | powerSaving params =>
      obtain ⟨mf, ai⟩ := params
      rw [build_powerSaving_eq] at hb
      injection hb with hb
      subst hb
      rw [finishBuild_framepaceAdded _ _ _ _ _ (by simpa using h0)]
      rfl
  | none b =>
      rw [build_noneMode_eq] at hb
      cases b with
      | false =>
          simp only [if_false, Bool.false_eq_true, ite_false] at hb
          injection hb with hb
          subst hb
          simp [QuickResponseMode.isNoneVariant, h0]
      | true =>
          simp only [if_true, ite_true] at hb
          injection hb with hb
          subst hb
          simp [QuickResponseMode.isNoneVariant, h0]

/-- C1: for every pair of mode and target OS, `window_plugin()` gives the
primary window the present mode of the spec table (`specPresentMode`):
FastVsync and PowerSaving map to Mailbox on Windows and Linux and to
AutoNoVsync on macOS and other OSes; Immediate maps to Immediate and
AutoNoVsync to AutoNoVsync on every OS; for `None(_)` the host-default
window configuration is returned. -/
theorem present_mode_table (p : QuickResponsePlugin) (os : OS) :
    p.window_plugin os =
      (match specPresentMode p.mode os with
       | some pm => { primary_window := some { present_mode := pm } }
       | Option.none => WindowPlugin.windowPluginDefault) := by
  obtain ⟨mode, flag⟩ := p
  cases mode <;> cases os <;> rfl

/-- C2: for every plugin, a completed `build` on an application that does
not yet contain the limiter subsystem registers `FramepacePlugin` if and
only if the mode is not a `None(_)` variant and the internal
test-suppression flag is clear. -/
theorem limiter_engagement (p : QuickResponsePlugin) (os : OS) (app appR : App)
    (h0 : app.framepaceAdded = false)
    (hb : p.build os app = Except.ok appR) :
    appR.framepaceAdded = true ↔
      (p.mode.isNoneVariant = false ∧ p._no_framepace_for_test = false) := by
  rw [framepace_after_build p os app appR h0 hb]
  cases h1 : p.mode.isNoneVariant <;> cases h2 : p._no_framepace_for_test <;> simp

/-- Witness for C2 at `fast_vsync(60.0, 120.0)` on Linux. -/
theorem limiter_engagement_witness :
    appAfterFastVsyncBuild.framepaceAdded = true ↔
      (((QuickResponsePlugin.fast_vsync (F64.finite 60) (F64.finite 120)).mode.isNoneVariant = false) ∧
        (QuickResponsePlugin.fast_vsync (F64.finite 60) (F64.finite 120))._no_framepace_for_test = false) :=
  limiter_engagement (QuickResponsePlugin.fast_vsync (F64.finite 60) (F64.finite 120))
    OS.linux App.appNew appAfterFastVsyncBuild (by decide) (by decide)

/-- C3: for every mode other than `None(_)` (here: every mode carrying a
`max_fps`), a completed `build` with the test-suppression flag clear
registers the one-shot `setup_fps` startup action, and running that action
writes `Limiter::from_framerate(max_fps)` into the shared
`FramepaceSettings.limiter`, so the effective framerate cap equals
`max_fps`. -/
theorem startup_writes_max_fps (p : QuickResponsePlugin) (os : OS) (app appR : App)
    (mf : F64)
    (hmf : p.mode.maxFps = some mf)
    (hflag : p._no_framepace_for_test = false)
    (hb : p.build os app = Except.ok appR) :
    StartupSystem.setupFps mf ∈ appR.startupSystems ∧
      ∀ s : FramepaceSettings,
        runStartupSystem (StartupSystem.setupFps mf) s
          = { s with limiter := Limiter.fromFramerate mf } := by
  refine ⟨?_, fun s => rfl⟩
  obtain ⟨mode, flag⟩ := p
  cases mode with
  | fastVsync params =>
      obtain ⟨bf, mf2, ai⟩ := params
      simp only [QuickResponseMode.maxFps, Option.some.injEq] at hmf
      subst hmf
      rw [build_fastVsync_eq] at hb
      cases hd : durationFromSecsF64 (F64.recipOne bf) with
      | none => rw [hd] at hb; simp at hb
      | some wait =>
          rw [hd] at hb
          injection hb with hb
          subst hb
          exact finishBuild_startupSystems _ _ _ _ _ hflag
  | immediate params =>
      obtain ⟨bf, mf2, ai⟩ := params
      simp only [QuickResponseMode.maxFps, Option.some.injEq] at hmf
      subst hmf
      rw [build_immediate_eq] at hb
      cases hd : durationFromSecsF64 (F64.recipOne bf) with
      | none => rw [hd] at hb; simp at hb
      | some wait =>
          rw [hd] at hb
          injection hb with hb
          subst hb
          exact finishBuild_startupSystems _ _ _ _ _ hflag
  | autoNoVsync params =>
      obtain ⟨bf, mf2, ai⟩ := params
      simp only [QuickResponseMode.maxFps, Option.some.injEq] at hmf
      subst hmf
      rw [build_autoNoVsync_eq] at hb
      cases hd : durationFromSecsF64 (F64.recipOne bf) with
      | none => rw [hd] at hb; simp at hb
      | some wait =>
          rw [hd] at hb
          injection hb with hb
          subst hb
          exact finishBuild_startupSystems _ _ _ _ _ hflag
  | powerSaving params =>
      obtain ⟨mf2, ai⟩ := params
      simp only [QuickResponseMode.maxFps, Option.some.injEq] at hmf
      subst hmf
      rw [build_powerSaving_eq] at hb
      injection hb with hb
      subst hb
      exact finishBuild_startupSystems _ _ _ _ _ hflag
  | none b =>
      simp [QuickResponseMode.maxFps] at hmf

/-- Witness for C3 at `immediate(60.0, 120.0)` on Linux. -/
theorem startup_writes_max_fps_witness :
    StartupSystem.setupFps (F64.finite 120) ∈ appAfterImmediateBuild.startupSystems ∧
      ∀ s : FramepaceSettings,
        runStartupSystem (StartupSystem.setupFps (F64.finite 120)) s
          = { s with limiter := Limiter.fromFramerate (F64.finite 120) } :=
  startup_writes_max_fps (QuickResponsePlugin.immediate (F64.finite 60) (F64.finite 120))
    OS.linux App.appNew appAfterImmediateBuild (F64.finite 120) (by decide) (by decide) (by decide)

/-- C4: building the plugin with mode `None(false)` performs no side
effects: `build` returns the application unchanged. -/
theorem build_none_false_is_noop (p : QuickResponsePlugin) (os : OS) (app : App)
    (h : p.mode = QuickResponseMode.none false) :
    p.build os app = Except.ok app := by
  obtain ⟨mode, flag⟩ := p
  simp only at h
  subst h
  rfl

/-- Witness for C4 at `none(false)` on Linux. -/
theorem build_none_false_is_noop_witness :
    (QuickResponsePlugin.noneMode false).mode = QuickResponseMode.none false ∧
      (QuickResponsePlugin.noneMode false).build OS.linux App.appNew = Except.ok App.appNew :=
  ⟨rfl, build_none_false_is_noop (QuickResponsePlugin.noneMode false) OS.linux App.appNew rfl⟩

/-- C5: building the plugin with mode `None(true)` installs the host
default subsystems (`DefaultPlugins`) and nothing else: the returned
application differs from the input only in `defaultPluginsAdded`; in
particular no event-loop settings resource, no limiter subsystem and no
startup hook are added. -/
theorem build_none_true_defaults_only (p : QuickResponsePlugin) (os : OS) (app : App)
    (h : p.mode = QuickResponseMode.none true) :
    p.build os app = Except.ok { app with defaultPluginsAdded := true } := by
  obtain ⟨mode, flag⟩ := p
  simp only at h
  subst h
  rfl

/-- Witness for C5 at `none(true)` on Linux. -/
theorem build_none_true_defaults_only_witness :
    (QuickResponsePlugin.noneMode true).mode = QuickResponseMode.none true ∧
      (QuickResponsePlugin.noneMode true).build OS.linux App.appNew
        = Except.ok { App.appNew with defaultPluginsAdded := true } :=
  ⟨rfl, build_none_true_defaults_only (QuickResponsePlugin.noneMode true) OS.linux App.appNew rfl⟩

/-- C6 counterexample: the claim bounds the wait by 1e-9 s of
`1.0 / base_fps` for every FastVsync/Immediate/AutoNoVsync mode, but at
the representable double `base_fps = 3 * 2^(-32)` (publicly constructible
via `fast_vsync`) the correctly rounded double quotient `1.0 / base_fps`
already sits `2^(-22)/3 ~ 7.9e-8 s` away from the exact `2^32 / 3` s, so
the wait the program computes (`f64WaitRounded`) misses the bound, while
`build` completes normally. -/
theorem cadence_bound_fails_small_base_fps :
    f64WaitRounded (Rat.divInt 3 4294967296)
        = some (Rat.divInt 715827882666666627 500000000) ∧
    ((QuickResponsePlugin.fast_vsync (F64.finite (Rat.divInt 3 4294967296))
        (F64.finite 120)).build OS.linux App.appNew).toOption.isSome = true ∧
    Rat.divInt 1 1000000000 <
      |(Rat.divInt 715827882666666627 500000000 : ℚ) - Rat.divInt 4294967296 3| := by
  refine ⟨by decide, by decide, lt_abs.mpr (Or.inr ?_)⟩
  rw [Rat.divInt_eq_div, Rat.divInt_eq_div, Rat.divInt_eq_div]
  norm_num

/-- C6 (amended): for every FastVsync, Immediate or AutoNoVsync mode whose
finite `base_fps` exceeds `2^(-23)` and yields a valid wait duration,
`build` inserts an event-loop settings resource with both the focused and
the unfocused mode reactive low-power, and the wait the real program
computes — the correctly rounded double quotient `1.0 / base_fps` rounded
to the nanosecond grid, `f64WaitRounded` — equals `1.0 / base_fps` seconds
to within 1e-9 s.  (Below `2^(-23)` the quotient's half-ulp alone can
exceed the budget: counterexample at `3 * 2^(-32)`.) -/
theorem cadence_rule_rounded (p : QuickResponsePlugin) (os : OS) (app : App)
    (q : ℚ) (w wR : Duration)
    (hbf : p.mode.baseFps = some (F64.finite q))
    (hdom : Rat.divInt 1 8388608 < q)
    (hw : durationFromSecsF64 (F64.recipOne (F64.finite q)) = some w)
    (hwR : f64WaitRounded q = some wR) :
    ∃ appR, p.build os app = Except.ok appR ∧
      appR.winitSettings = some (reactiveBoth w) ∧
      |wR - 1 / q| ≤ Rat.divInt 1 1000000000 := by
  have hq0 : (0 : ℚ) < q := by
    refine lt_trans ?_ hdom
    rw [Rat.divInt_eq_div]
    norm_num
  have hq : q ≠ 0 := ne_of_gt hq0
  have hxpos : (0 : ℚ) < q⁻¹ := inv_pos.mpr hq0
  have hxlt : q⁻¹ < 2 ^ (23 : ℕ) := by
    have h1 : ((Rat.divInt 1 8388608 : ℚ))⁻¹ = 2 ^ (23 : ℕ) := by
      rw [Rat.divInt_eq_div]
      norm_num
    calc q⁻¹ < (Rat.divInt 1 8388608 : ℚ)⁻¹ := by
          refine inv_strictAnti₀ ?_ hdom
          rw [Rat.divInt_eq_div]
          norm_num
      _ = 2 ^ (23 : ℕ) := h1
  rw [f64WaitRounded, if_neg hq] at hwR
  have hinv : (Rat.divInt (q.den : ℤ) q.num : ℚ) = q⁻¹ := (Rat.inv_def' q).symm
  rw [hinv] at hwR
  have hround : roundF64 q⁻¹ = roundF64Pos q⁻¹ := by
    rw [roundF64, if_neg (ne_of_gt hxpos), if_neg (not_lt.mpr hxpos.le)]
  rw [hround] at hwR
  split_ifs at hwR
  injection hwR with hwR
  subst hwR
  have hs_le : max (ratFloorLog2 q⁻¹ - 52) (-1074) ≤ -30 := by
    have := ratFloorLog2_le q⁻¹ hxlt
    omega
  have hstep : pow2Q (max (ratFloorLog2 q⁻¹ - 52) (-1074)) ≤ (2 : ℚ) ^ (-30 : ℤ) := by
    rw [pow2Q_eq]
    exact zpow_le_zpow_right₀ one_le_two hs_le
  have herr1 : |roundF64Pos q⁻¹ - q⁻¹| ≤ (2 : ℚ) ^ (-30 : ℤ) / 2 := by
    calc |roundF64Pos q⁻¹ - q⁻¹|
        ≤ pow2Q (max (ratFloorLog2 q⁻¹ - 52) (-1074)) / 2 := roundF64Pos_err q⁻¹
      _ ≤ (2 : ℚ) ^ (-30 : ℤ) / 2 := by linarith [hstep]
  have herr2 : |nsRound (roundF64Pos q⁻¹) - roundF64Pos q⁻¹| ≤ 1 / 2000000000 :=
    nsRound_err _
  have htotal : |nsRound (roundF64Pos q⁻¹) - 1 / q| ≤ Rat.divInt 1 1000000000 := by
    have hbound : (Rat.divInt 1 1000000000 : ℚ) = 1 / 1000000000 := by
      rw [Rat.divInt_eq_div]
      norm_num
    have hfin : (1 : ℚ) / 2000000000 + (2 : ℚ) ^ (-30 : ℤ) / 2 ≤ 1 / 1000000000 := by
      rw [zpow_neg, show ((30 : ℤ)) = ((30 : ℕ) : ℤ) by norm_num, zpow_natCast]
      norm_num
    rw [one_div, hbound]
    calc |nsRound (roundF64Pos q⁻¹) - q⁻¹|
        ≤ |nsRound (roundF64Pos q⁻¹) - roundF64Pos q⁻¹| + |roundF64Pos q⁻¹ - q⁻¹| :=
          abs_sub_le _ _ _
      _ ≤ 1 / 2000000000 + (2 : ℚ) ^ (-30 : ℤ) / 2 := add_le_add herr2 herr1
      _ ≤ 1 / 1000000000 := hfin
  obtain ⟨mode, flag⟩ := p
  cases mode with
  | fastVsync params =>
      obtain ⟨bf, mf, ai⟩ := params
      simp only [QuickResponseMode.baseFps, Option.some.injEq] at hbf
      subst hbf
      refine ⟨(QuickResponsePlugin.mk (QuickResponseMode.fastVsync ⟨F64.finite q, mf, ai⟩)
          flag).finishBuild os mf ai { app with winitSettings := some (reactiveBoth w) },
        ?_, ?_, htotal⟩
      · rw [build_fastVsync_eq, hw]
      · rw [finishBuild_winitSettings]
  | immediate params =>
      obtain ⟨bf, mf, ai⟩ := params
      simp only [QuickResponseMode.baseFps, Option.some.injEq] at hbf
      subst hbf
      refine ⟨(QuickResponsePlugin.mk (QuickResponseMode.immediate ⟨F64.finite q, mf, ai⟩)
          flag).finishBuild os mf ai { app with winitSettings := some (reactiveBoth w) },
        ?_, ?_, htotal⟩
      · rw [build_immediate_eq, hw]
      · rw [finishBuild_winitSettings]
  | autoNoVsync params =>
      obtain ⟨bf, mf, ai⟩ := params
      simp only [QuickResponseMode.baseFps, Option.some.injEq] at hbf
      subst hbf
      refine ⟨(QuickResponsePlugin.mk (QuickResponseMode.autoNoVsync ⟨F64.finite q, mf, ai⟩)
          flag).finishBuild os mf ai { app with winitSettings := some (reactiveBoth w) },
        ?_, ?_, htotal⟩
      · rw [build_autoNoVsync_eq, hw]
      · rw [finishBuild_winitSettings]
  | powerSaving params => simp [QuickResponseMode.baseFps] at hbf
  | none b => simp [QuickResponseMode.baseFps] at hbf

/-- Witness for the amended C6 at `fast_vsync(60.0, 120.0)` on Linux: the
model wait is exactly 1/60 s and the faithful wait is 16666667 ns, which
is within 1e-9 s of 1/60 s. -/
theorem cadence_rule_rounded_witness :
    ∃ appR,
      (QuickResponsePlugin.fast_vsync (F64.finite 60) (F64.finite 120)).build
          OS.linux App.appNew = Except.ok appR ∧
      appR.winitSettings = some (reactiveBoth (Rat.divInt 1 60)) ∧
      |(Rat.divInt 16666667 1000000000 : ℚ) - 1 / 60| ≤ Rat.divInt 1 1000000000 :=
  cadence_rule_rounded (QuickResponsePlugin.fast_vsync (F64.finite 60) (F64.finite 120))
    OS.linux App.appNew 60 (Rat.divInt 1 60) (Rat.divInt 16666667 1000000000)
    (by decide) (by decide) (by decide) (by decide)

/-- C7: for every boolean `b` (and flag state), `with_no_default_plugins()`
on a plugin whose mode is `None(b)` yields the `None(false)` plugin. -/
theorem none_normalisation (b flag : Bool) :
    (QuickResponsePlugin.mk (QuickResponseMode.none b) flag).with_no_default_plugins
      = QuickResponsePlugin.noneMode false := rfl

/-- C8: `with_no_default_plugins()` keeps the variant and every parameter
field (`base_fps`, `max_fps`) unchanged on `FastVsync`, `Immediate`,
`AutoNoVsync` and `PowerSaving`, except `auto_init_default_plugins`, which
becomes false. -/
theorem parameter_preservation (params : QuickResponseParameters)
    (pparams : QuickResponseParametersWithNoBaseFps) (flag : Bool) :
    ((QuickResponsePlugin.mk (QuickResponseMode.fastVsync params) flag).with_no_default_plugins).mode
        = QuickResponseMode.fastVsync
            { base_fps := params.base_fps, max_fps := params.max_fps,
              auto_init_default_plugins := false } ∧
    ((QuickResponsePlugin.mk (QuickResponseMode.immediate params) flag).with_no_default_plugins).mode
        = QuickResponseMode.immediate
            { base_fps := params.base_fps, max_fps := params.max_fps,
              auto_init_default_plugins := false } ∧
    ((QuickResponsePlugin.mk (QuickResponseMode.autoNoVsync params) flag).with_no_default_plugins).mode
        = QuickResponseMode.autoNoVsync
            { base_fps := params.base_fps, max_fps := params.max_fps,
              auto_init_default_plugins := false } ∧
    ((QuickResponsePlugin.mk (QuickResponseMode.powerSaving pparams) flag).with_no_default_plugins).mode
        = QuickResponseMode.powerSaving
            { max_fps := pparams.max_fps, auto_init_default_plugins := false } :=
  ⟨rfl, rfl, rfl, rfl⟩

/-- C9: `with_no_default_plugins()` always returns a plugin whose internal
test-suppression flag is false, even right after
`with_no_framepace_for_test()`; consequently a completed build of the
composite plugin (mode not `None(_)`) registers the limiter subsystem
again. -/
theorem suppression_discarded (p : QuickResponsePlugin) (os : OS) (app appR : App)
    (h0 : app.framepaceAdded = false)
    (hnone : p.mode.isNoneVariant = false)
    (hb : (p.with_no_framepace_for_test.with_no_default_plugins).build os app
            = Except.ok appR) :
    (p.with_no_framepace_for_test.with_no_default_plugins)._no_framepace_for_test = false ∧
      appR.framepaceAdded = true := by
  obtain ⟨mode, flag⟩ := p
  have hflag :
      ((QuickResponsePlugin.mk mode flag).with_no_framepace_for_test.with_no_default_plugins)._no_framepace_for_test
        = false := by
    cases mode <;> rfl
  refine ⟨hflag, ?_⟩
  have hmode :
      ((QuickResponsePlugin.mk mode flag).with_no_framepace_for_test.with_no_default_plugins).mode.isNoneVariant
        = false := by
    cases mode with
    | none b => simp [QuickResponseMode.isNoneVariant] at hnone
    | fastVsync params => rfl
    | immediate params => rfl
    | autoNoVsync params => rfl
    | powerSaving params => rfl
  have h := framepace_after_build _ os app appR h0 hb
  rw [hmode, hflag] at h
  simpa using h

/-- Witness for C9 at `fast_vsync(60.0, 120.0)` on Linux. -/
theorem suppression_discarded_witness :
    ((QuickResponsePlugin.fast_vsync (F64.finite 60)
        (F64.finite 120)).with_no_framepace_for_test.with_no_default_plugins)._no_framepace_for_test
      = false ∧
      appAfterCompositeBuild.framepaceAdded = true :=
  suppression_discarded (QuickResponsePlugin.fast_vsync (F64.finite 60) (F64.finite 120))
    OS.linux App.appNew appAfterCompositeBuild (by decide) (by decide) (by decide)

/-- C10 counterexample: the claim asserts a panic for every non-finite
`base_fps`, but at `base_fps = +inf` (public constructor `fast_vsync`) the
division `1.0 / inf` yields `0.0`, `Duration::from_secs_f64(0.0)` succeeds,
and `build` completes normally with zero wait intervals. -/
theorem inf_base_fps_does_not_panic :
    (QuickResponsePlugin.fast_vsync F64.inf (F64.finite 120)).build OS.linux App.appNew
      = Except.ok
          { winitSettings := some (reactiveBoth 0)
            defaultPluginsAdded := true
            defaultPluginsWindow := some { primary_window := some { present_mode := PresentMode.mailbox } }
            framepaceAdded := true
            framepaceSettings := some { limiter := Limiter.auto }
            startupSystems := [StartupSystem.setupFps (F64.finite 120)] } := by decide

/-- C10 (amended): for every FastVsync, Immediate or AutoNoVsync mode whose
`base_fps` is NaN, zero, or a finite negative value, `build` panics when
converting `1.0 / base_fps` into a wait duration; the panic is reachable at
the public interface since the constructors perform no validation.  (For
`base_fps = ±inf` the division yields `±0.0` and no panic occurs, contrary
to the original claim.) -/
theorem invalid_base_fps_panics (p : QuickResponsePlugin) (os : OS) (app : App) (bf : F64)
    (hbf : p.mode.baseFps = some bf)
    (hbad : bf = F64.nan ∨ ∃ q : ℚ, bf = F64.finite q ∧ q ≤ 0) :
    p.build os app = Except.error "panicked at Duration::from_secs_f64" := by
  have hdur : durationFromSecsF64 (F64.recipOne bf) = Option.none := by
    rcases hbad with rfl | ⟨q, rfl, hq⟩
    · rfl
    · rcases lt_or_eq_of_le hq with hlt | rfl
      · rw [F64.recipOne_finite q (ne_of_lt hlt)]
        simp [durationFromSecsF64, inv_lt_zero.mpr hlt]
      · rfl
  obtain ⟨mode, flag⟩ := p
  cases mode with
  | fastVsync params =>
      obtain ⟨bf2, mf, ai⟩ := params
      simp only [QuickResponseMode.baseFps, Option.some.injEq] at hbf
      subst hbf
      rw [build_fastVsync_eq, hdur]
  | immediate params =>
      obtain ⟨bf2, mf, ai⟩ := params
      simp only [QuickResponseMode.baseFps, Option.some.injEq] at hbf
      subst hbf
      rw [build_immediate_eq, hdur]
  | autoNoVsync params =>
      obtain ⟨bf2, mf, ai⟩ := params
      simp only [QuickResponseMode.baseFps, Option.some.injEq] at hbf
      subst hbf
      rw [build_autoNoVsync_eq, hdur]
  | powerSaving params => simp [QuickResponseMode.baseFps] at hbf
  | none b => simp [QuickResponseMode.baseFps] at hbf

/-- Witness for the amended C10 at `fast_vsync(0.0, 120.0)`:
`1.0 / 0.0 = +inf` and `from_secs_f64` panics. -/
theorem invalid_base_fps_panics_witness :
    (QuickResponsePlugin.fast_vsync (F64.finite 0) (F64.finite 120)).build OS.linux App.appNew
      = Except.error "panicked at Duration::from_secs_f64" :=
  invalid_base_fps_panics (QuickResponsePlugin.fast_vsync (F64.finite 0) (F64.finite 120))
    OS.linux App.appNew (F64.finite 0) (by decide) (Or.inr ⟨0, rfl, le_refl 0⟩)

end BevyQuickResponse
